import Mathlib

/-!
Verification development for the CLDR update pipeline (cldr/update.py).

The Python module is shallowly embedded.  XML-decoded records become
association lists from attribute keys (xmltodict prefixes attribute names
with "@") to string values; the HTTP HEAD probing of get_latest_version_url
becomes an abstract probe function returning the resolved URL of a 200
response; generator functions become functions returning the rows produced
before any raise together with an error flag; the unbounded while and for
loops receive an explicit fuel parameter whose exhaustion is the only source
of a fuel-out result, so divergence of the source loop is visible as
"no amount of fuel suffices".
-/

/-- A decoded XML record: attribute keys (with the "@" prefix that xmltodict
adds) mapped to string values. -/
abbrev Record := List (String × String)

/-- Python d.get(k, None) on a decoded record or on the parent mapping:
the value of the first matching key, if any. -/
def rget? (r : Record) (k : String) : Option String :=
  (r.find? (fun p => p.1 == k)).map (fun p => p.2)

/-- Character-level splitter shared by the models of str.split() and
str.split("-"): cut at every separator character, keeping empty pieces. -/
def chSplit (p : Char → Bool) : List Char → List (List Char)
  | [] => [[]]
  | c :: cs =>
    if p c then [] :: chSplit p cs
    else
      match chSplit p cs with
      | [] => [[c]]
      | w :: ws => (c :: w) :: ws

/-- Python value.split(sep) for a single-character separator: empty pieces
are kept, exactly as in Python. -/
def pysplitOn (sep : Char) (s : String) : List String :=
  (chSplit (fun c => c == sep) s.toList).map String.mk

/-- Python str.split() with no argument: split on whitespace and drop the
empty pieces. -/
def pysplit (s : String) : List String :=
  ((chSplit (fun c => c == ' ' || c == '\t' || c == '\n' || c == '\r') s.toList).map
      String.mk).filter (fun w => w ≠ "")

/-- Space-joining of a path list, as done by the Python expression that joins
the containment path with single spaces. -/
def joinSpace : List String → String
  | [] => ""
  | [s] => s
  | s :: rest => s ++ " " ++ joinSpace rest

/-- All-or-nothing map over a list, modelling a Python expression that raises
as soon as one element fails. -/
def optMapList (f : α → Option β) : List α → Option (List β)
  | [] => some []
  | a :: l =>
    match f a, optMapList f l with
    | some b, some bs => some (b :: bs)
    | _, _ => none

/-! ## get_latest_version_url (source lines 33-49) -/

/-- One HEAD probe of the templated URL at an integer version: none models a
non-200 status code, some u a 200 response whose final, post-redirect URL
(result.url in the source) is u. -/
abbrev Probe := Int → Option String

/-- The probing loop of get_latest_version_url (source lines 40-49): iterate
current over count(start); on the first non-200 response return
(current - 1, latest) where latest is the resolved URL remembered from the
previous successful probe (initially None).  The source loop is unbounded, so
the embedding carries fuel; none is returned only when fuel runs out. -/
def locate (probe : Probe) : Nat → Int → Option String → Option (Int × Option String)
  | 0, _, _ => none
  | fuel + 1, current, latest =>
    match probe current with
    | none => some (current - 1, latest)
    | some url => locate probe fuel (current + 1) (some url)

/-- get_latest_version_url: run the probing loop from start with latest=None. -/
def get_latest_version_url (probe : Probe) (fuel : Nat) (start : Int) :
    Option (Int × Option String) :=
  locate probe fuel start none

lemma locate_run (probe : Probe) (stop : Int)
    (h2 : probe (stop + 1) = none) :
    ∀ (fuel : Nat) (start : Int) (latest : Option String),
      (∀ v : Int, start ≤ v → v ≤ stop → (probe v).isSome) →
      start ≤ stop → stop + 2 ≤ start + fuel →
      locate probe fuel start latest = some (stop, probe stop) := by
  intro fuel
  induction fuel with
  | zero => intro start latest _ hs hf; omega
  | succ f ih =>
    intro start latest h1 hs hf
    have hps : (probe start).isSome := h1 start le_rfl hs
    obtain ⟨u, hu⟩ := Option.isSome_iff_exists.mp hps
    by_cases hse : start = stop
    · subst hse
      have hf1 : 1 ≤ f := by omega
      obtain ⟨f2, rfl⟩ : ∃ f2, f = f2 + 1 := ⟨f - 1, by omega⟩
      simp only [locate, hu, h2]
      have : start + 1 - 1 = start := by ring
      rw [this]
    · have hlt : start + 1 ≤ stop := by omega
      simp only [locate, hu]
      exact ih (start + 1) (some u)
        (fun v hv1 hv2 => h1 v (by omega) hv2) hlt (by omega)

/-- C1: if the probes at versions start..start+k all succeed and the probe at
start+k+1 fails, get_latest_version_url returns the pair
(start+k, url recorded from the successful probe of start+k) — the resolved
URL of that probe, not the templated one (the probe function itself yields
the resolved URL). -/
theorem c1_version_locator (probe : Probe) (start : Int) (k : Nat) (fuel : Nat)
    (h1 : ∀ i : Nat, i ≤ k → (probe (start + i)).isSome)
    (h2 : probe (start + k + 1) = none)
    (hf : k + 2 ≤ fuel) :
    get_latest_version_url probe fuel start = some (start + k, probe (start + k)) := by
  apply locate_run probe (start + k) h2 fuel start none
  · intro v hv1 hv2
    have hik : (v - start).toNat ≤ k := by omega
    have hv : v = start + ((v - start).toNat : Int) := by omega
    rw [hv]
    exact h1 _ hik
  · omega
  · omega

/-- Concrete probe for the C1 witness: versions 29 and 30 exist (with distinct
resolved URLs), version 31 does not. -/
def wProbe : Probe := fun v =>
  if v = 30 then some "b" else if v = 29 then some "a" else none

/-- Witness for C1 at probe wProbe, start 29, k = 1, fuel 4. -/
theorem c1_version_locator_witness :
    get_latest_version_url wProbe 4 29 = some (30, some "b") :=
  (c1_version_locator wProbe 29 1 4 (by decide) (by decide) (by decide)).trans (by decide)

/-- C6 (amended): when the very first probe fails, get_latest_version_url
raises nothing; it returns (start - 1, none) — the URL slot is None and the
failure is silent at the locator, only surfacing later when the fetcher
tries to GET a None URL. -/
theorem c6_amended (probe : Probe) (start : Int) (fuel : Nat)
    (h : probe start = none) (hf : 1 ≤ fuel) :
    get_latest_version_url probe fuel start = some (start - 1, none) := by
  obtain ⟨f, rfl⟩ : ∃ f, fuel = f + 1 := ⟨fuel - 1, by omega⟩
  simp only [get_latest_version_url, locate, h]

/-- Probe under which no version at all exists. -/
def noProbe : Probe := fun _ => none

/-- C6 counterexample: with a probe that fails immediately at start = 29, the
locator returns the ordinary result some (28, none) — a silently empty URL,
not an error (the source has no raise on this path at all), refuting the
claim that the failure is surfaced as an error. -/
theorem c6_counterexample :
    get_latest_version_url noProbe 5 29 = some (28, none) := by decide

/-- Witness for C6 (amended) at the all-failing probe, start 29, fuel 3. -/
theorem c6_witness : get_latest_version_url noProbe 3 29 = some (28, none) :=
  (c6_amended noProbe 29 3 rfl (by decide)).trans (by decide)

/-! ## Territory containment path (source lines 240-256) -/

/-- n-fold parent lookup in the member-to-parent mapping, following exactly
the successor relation of the while loop: from state some p the next state is
mapping.get(p, None); from none there is no further state. -/
def iterParent (m : List (String × String)) : Nat → Option String → Option String
  | 0, s => s
  | n + 1, s =>
    match s with
    | none => none
    | some p => iterParent m n (rget? m p)

/-- The while loop of the containment-path computation (source lines
249-252): while the parent is truthy, append it to the path, look up the
next parent with mapping.get, and break after the lookup when the next
parent equals the root sentinel "001" (the sentinel itself is never
appended).  The source loop is unbounded, so the embedding carries fuel and
returns none exactly when the loop runs longer than the fuel. -/
def containmentWalk (m : List (String × String)) : Nat → Option String → Option (List String)
  | _, none => some []
  | 0, some _ => none
  | fuel + 1, some p =>
    if p == "" then some []
    else
      let next := rget? m p
      if next == some "001" then some [p]
      else (containmentWalk m fuel next).map (fun rest => p :: rest)

/-- One row of the containment_path table (source lines 244-254): the
space-joined ancestor chain of key, starting from mapping[key]. -/
def containmentPath (m : List (String × String)) (fuel : Nat) (key : String) :
    Option String :=
  (containmentWalk m fuel (rget? m key)).map joinSpace

lemma isSomeMap (f : α → β) (x : Option α) : (x.map f).isSome = x.isSome := by
  cases x <;> rfl

lemma containmentWalk_isSome (m : List (String × String)) :
    ∀ (n : Nat) (s : Option String),
      (iterParent m n s = none ∨ (0 < n ∧ iterParent m n s = some "001")) →
      (containmentWalk m (n + 1) s).isSome = true := by
  intro n
  induction n with
  | zero =>
    intro s h
    rcases h with h | h
    · simp only [iterParent] at h
      subst h
      rfl
    · omega
  | succ n ih =>
    intro s h
    match s with
    | none => rfl
    | some p =>
      by_cases hp : (p == "") = true
      · simp [containmentWalk, hp]
      · by_cases hroot : (rget? m p == some "001") = true
        · simp [containmentWalk, hp, hroot]
        · simp only [containmentWalk, hp, hroot]
          simp only [Bool.false_eq_true, if_false, isSomeMap]
          apply ih
          have hstep : iterParent m (n + 1) (some p) = iterParent m n (rget? m p) := rfl
          rcases h with h | ⟨_, h⟩
          · exact Or.inl (hstep ▸ h)
          · rcases Nat.eq_zero_or_pos n with hn | hn
            · subst hn
              rw [hstep] at h
              simp only [iterParent] at h
              rw [h] at hroot
              simp at hroot
            · exact Or.inr ⟨hn, hstep ▸ h⟩

/-- C2 (amended): the containment-path computation terminates — with a path
row produced — whenever the parent chain from the key reaches a missing
mapping entry or the root sentinel "001"; a parent cycle that reaches
neither cutoff makes the source while loop run forever (see the
counterexample). -/
theorem c2_amended (m : List (String × String)) (key : String) (n : Nat)
    (h : iterParent m n (rget? m key) = none ∨
      (0 < n ∧ iterParent m n (rget? m key) = some "001")) :
    (containmentPath m (n + 1) key).isSome = true := by
  simp only [containmentPath, isSomeMap]
  exact containmentWalk_isSome m n (rget? m key) h

/-- The three-level example map of the spec: A is contained in B, B in C,
C in the world sentinel 001. -/
def cMap3 : List (String × String) := [("A", "B"), ("B", "C"), ("C", "001")]

/-- Witness for C2 (amended) on cMap3: the chain from A reaches the sentinel
in two lookups, so fuel 3 terminates with a row. -/
theorem c2_witness : (containmentPath cMap3 3 "A").isSome = true :=
  c2_amended cMap3 "A" 2 (Or.inr ⟨by decide, by decide⟩)

/-- A parent map with the two-element cycle A -> B -> A. -/
def cycMap : List (String × String) := [("A", "B"), ("B", "A")]

lemma cycMap_walk_none :
    ∀ fuel : Nat, containmentWalk cycMap fuel (some "A") = none ∧
      containmentWalk cycMap fuel (some "B") = none := by
  intro fuel
  induction fuel with
  | zero => exact ⟨rfl, rfl⟩
  | succ f ih =>
    constructor
    · have h1 : rget? cycMap "A" = some "B" := rfl
      simp only [containmentWalk, h1]
      norm_num
      rw [ih.2]
      rfl
    · have h2 : rget? cycMap "B" = some "A" := rfl
      simp only [containmentWalk, h2]
      norm_num
      rw [ih.1]
      rfl

/-- C2 counterexample: on the cyclic parent map cycMap the walk for key A
never terminates — no amount of fuel makes the source while loop produce a
row, refuting the claim that the computation terminates for every parent map
with a cycle. -/
theorem c2_counterexample :
    ¬ ∃ fuel : Nat, (containmentPath cycMap fuel "A").isSome = true := by
  rintro ⟨fuel, h⟩
  have hA : rget? cycMap "A" = some "B" := rfl
  rw [containmentPath, hA, (cycMap_walk_none fuel).2] at h
  simp at h

/-- C3 counterexample: on the spec example map cMap3 the path for A is
"B C", not "B C 001" — the root sentinel is never appended, because the
source breaks after looking up the next parent and before appending it. -/
theorem c3_counterexample :
    containmentPath cMap3 10 "A" = some "B C" ∧
      containmentPath cMap3 10 "A" ≠ some "B C 001" := by decide

/-- C3 (amended): for the parent map cMap3 the containment path of A is
"B C": each visited parent is appended in order, and the walk stops when the
next parent is the root sentinel "001" without appending the sentinel. -/
theorem c3_amended : containmentPath cMap3 10 "A" = some "B C" := by decide

/-! ## _extract_values (source lines 113-127) -/

/-- A field spec as received by _extract_values: either a plain attribute key
or a (key, sqltype) pair; the caller _simple_store has already added the "@"
prefix to the key. -/
inductive FieldName where
  | plain (key : String)
  | typed (key : String) (ty : String)
deriving DecidableEq

/-- The key looked up for a field spec in the base row (source line 115:
name[0] if isinstance(name, tuple) else name). -/
def keyOf : FieldName → String
  | FieldName.plain k => k
  | FieldName.typed k _ => k

/-- A projected row; none is Python None. -/
abbrev Row := List (Option String)

/-- The base row of one record (source line 115): i.get(key, None) for each
field, so an absent attribute projects to none. -/
def baseRow (i : Record) (names : List FieldName) : Row :=
  names.map (fun n => rget? i (keyOf n))

/-- One synonym row before the alias-of slot is appended (source line 124):
a plain field whose full spec equals "@name" takes the synonym, every other
field is read with the raising lookup i[name] — none models the KeyError
raised when the attribute is absent, and a tuple field spec always raises
because its tuple key cannot occur among the string keys of a decoded
record. -/
def aliasRow (i : Record) (names : List FieldName) (syn : String) : Option Row :=
  optMapList
    (fun n =>
      match n with
      | FieldName.plain k => if k == "@name" then some (some syn) else (rget? i k).map some
      | FieldName.typed _ _ => none)
    names

/-- The alias loop of _extract_values (source lines 122-127): for each
synonym build the substituted row (may raise), append i["@name"] as the
alias-of slot (raises when @name is absent), and yield.  The result is the
list of rows yielded before any raise together with a flag recording whether
the loop raised. -/
def aliasRowsRun (i : Record) (names : List FieldName) : List String → List Row × Bool
  | [] => ([], false)
  | syn :: rest =>
    match aliasRow i names syn, rget? i "@name" with
    | some row, some canon =>
      let r := aliasRowsRun i names rest
      ((row ++ [some canon]) :: r.1, r.2)
    | _, _ => ([], true)

/-- _extract_values restricted to a single input record: the rows the
generator yields for this record (base row first, with a trailing none
alias-of slot when aliased, then one row per synonym of the @alias
attribute) and whether it raised while producing them. -/
def extractRecordRows (aliased : Bool) (names : List FieldName) (i : Record) :
    List Row × Bool :=
  let base := baseRow i names
  if aliased then
    let based := base ++ [none]
    match rget? i "@alias" with
    | some al =>
      let r := aliasRowsRun i names (pysplit al)
      (based :: r.1, r.2)
    | none => ([based], false)
  else ([base], false)

/-- _extract_values over the whole record list (source lines 113-127): all
rows yielded before any raise, and whether the generator raised. -/
def extract_values (aliased : Bool) (names : List FieldName) : List Record → List Row × Bool
  | [] => ([], false)
  | i :: rest =>
    let r := extractRecordRows aliased names i
    if r.2 then (r.1, true)
    else
      let rr := extract_values aliased names rest
      (r.1 ++ rr.1, rr.2)

/-- Field spec predicate used by the amended C4: a plain spec whose attribute
is present on the record (tuple specs and absent attributes make the alias
rows raise). -/
def plainPresent (i : Record) : FieldName → Bool
  | FieldName.plain k => (rget? i k).isSome
  | FieldName.typed _ _ => false

/-- The synonym row described by the spec: the base row with the "@name"
slot replaced by the synonym. -/
def subRow (i : Record) (names : List FieldName) (syn : String) : Row :=
  names.map (fun n =>
    if n = FieldName.plain "@name" then some syn else rget? i (keyOf n))

lemma aliasRow_eq_subRow (i : Record) (syn : String) :
    ∀ names : List FieldName, (∀ n ∈ names, plainPresent i n = true) →
      aliasRow i names syn = some (subRow i names syn) := by
  intro names
  induction names with
  | nil => intro _; rfl
  | cons n rest ih =>
    intro hp
    have hn := hp n (List.mem_cons_self n rest)
    have hrest := ih (fun x hx => hp x (List.mem_cons_of_mem n hx))
    match n with
    | FieldName.plain k =>
      by_cases hk : k = "@name"
      · subst hk
        simp [aliasRow, optMapList, subRow, keyOf] at hrest ⊢
        rw [hrest]
      · simp only [plainPresent] at hn
        obtain ⟨v, hv⟩ := Option.isSome_iff_exists.mp hn
        simp [aliasRow, optMapList, hk, hv, subRow, keyOf] at hrest ⊢
        rw [hrest]
    | FieldName.typed k t =>
      simp only [plainPresent] at hn
      exact absurd hn (by simp)

/-- C4 (amended): for a record whose canonical @name is "foo" and whose
@alias attribute is "bar baz", alias-enabled projection yields exactly the
base row with a trailing none alias-of slot followed by one row per synonym
— each the base row with the @name slot replaced by the synonym and the
alias-of slot set to "foo" — provided every field spec is a plain attribute
that is present on the record; when one is absent the base row carries none
for it but the synonym rows raise a KeyError instead (see the
counterexample). -/
theorem c4_amended (i : Record) (names : List FieldName)
    (hn : rget? i "@name" = some "foo")
    (ha : rget? i "@alias" = some "bar baz")
    (hp : ∀ n ∈ names, plainPresent i n = true) :
    extractRecordRows true names i =
      ([baseRow i names ++ [none],
        subRow i names "bar" ++ [some "foo"],
        subRow i names "baz" ++ [some "foo"]], false) := by
  have hsplit : pysplit "bar baz" = ["bar", "baz"] := by decide
  have h1 := aliasRow_eq_subRow i "bar" names hp
  have h2 := aliasRow_eq_subRow i "baz" names hp
  simp [extractRecordRows, ha, hsplit, aliasRowsRun, h1, h2, hn]

/-- Concrete record for the C4 witness. -/
def wRec4 : Record := [("@name", "foo"), ("@description", "d"), ("@alias", "bar baz")]

/-- Field specs for the C4 and C5 examples: the typical
_simple_store(..., True, "name", "description") call after prefixing. -/
def wNames : List FieldName := [FieldName.plain "@name", FieldName.plain "@description"]

/-- Witness for C4 (amended) at a record carrying name foo, description d and
aliases bar baz. -/
theorem c4_witness :
    extractRecordRows true wNames wRec4 =
      ([[some "foo", some "d", none],
        [some "bar", some "d", some "foo"],
        [some "baz", some "d", some "foo"]], false) :=
  (c4_amended wRec4 wNames (by decide) (by decide) (by decide)).trans (by decide)

/-- Record refuting the unrestricted C4: canonical name and aliases are
present but the optional @description attribute is absent. -/
def cRec4 : Record := [("@name", "foo"), ("@alias", "bar baz")]

/-- C4 counterexample: on a record with @name "foo" and @alias "bar baz" but
no @description, projection over (name, description) yields only the base
row and then raises (the true flag) — not the three rows the claim
promises for every such record. -/
theorem c4_counterexample :
    extractRecordRows true wNames cRec4 = ([[some "foo", none, none]], true) := by decide

/-- Record exhibiting the C5 bug: @alias present, @description absent. -/
def cRec5 : Record := [("@name", "foo"), ("@alias", "bar")]

/-- C5: the base path tolerates the absent @description (it projects to
none), but the alias-expanded path reads the record with the raising lookup
i[name] and raises KeyError on the same record — projection is not
raise-free on missing optional attributes, the alias rows diverge from the
base-row behaviour. -/
theorem c5_alias_keyerror :
    extractRecordRows false wNames cRec5 = ([[some "foo", none]], false) ∧
      extractRecordRows true wNames cRec5 = ([[some "foo", none, none]], true) := by decide

/-! ## Territory containment rows (source lines 223-238) -/

/-- Python str.isnumeric restricted to the ASCII tokens that occur in the
containment member lists: a nonempty string of decimal digits. -/
def pyisnumeric (s : String) : Bool :=
  match s.toList with
  | [] => false
  | cs => cs.all Char.isDigit

/-- The member list of a containment group (source line 228:
group["@contains"].split()). -/
def membersOf (group : Record) : Option (List String) :=
  (rget? group "@contains").map pysplit

/-- Source line 229, verbatim: intermediary is true when
group.get("status", None) == "grouping" or every member token is numeric.
Note that the source reads the plain key "status" while xmltodict stores the
status attribute under "@status" (the key the deprecated check two lines
above uses). -/
def intermediaryFlag (group : Record) (members : List String) : Bool :=
  (rget? group "status" == some "grouping") || members.all pyisnumeric

/-- Modelled from the spec wording of the intermediary rule (for comparison
with the source expression): the group is intermediary when its status
attribute — key "@status" after decoding — marks it as a grouping, or every
member token is purely numeric. -/
def specIntermediaryFlag (group : Record) (members : List String) : Bool :=
  (rget? group "@status" == some "grouping") || members.all pyisnumeric

/-- A real-shaped failing group: the EU grouping, status attribute
"grouping", with non-numeric country members. -/
def euGroup : Record := [("@type", "EU"), ("@status", "grouping"), ("@contains", "AT BE")]

/-- C7: the source consults the key "status", which never occurs in a decoded
record (attributes are stored under "@status"), so for the EU group — whose
status attribute explicitly marks it as a grouping and whose members are not
numeric — the emitted intermediary flag is false although the claimed rule
(here specIntermediaryFlag) yields true: the grouping disjunct of the source
is dead code. -/
theorem c7_grouping_flag_bug :
    rget? euGroup "@status" = some "grouping" ∧
      membersOf euGroup = some ["AT", "BE"] ∧
      (["AT", "BE"].all pyisnumeric) = false ∧
      intermediaryFlag euGroup ["AT", "BE"] = false ∧
      specIntermediaryFlag euGroup ["AT", "BE"] = true := by decide

/-! ## to_date (source lines 159-162) -/

/-- Python int() for the plain digit strings that occur as CLDR date
components (the sign and whitespace tolerance of int() is not exercised by
any date string and is not modelled). -/
def pyint? (s : String) : Option Nat :=
  match s.toList with
  | [] => none
  | cs =>
    if cs.all Char.isDigit then
      some (cs.foldl (fun a c => a * 10 + (c.toNat - 48)) 0)
    else none

/-- A datetime.date value. -/
structure PyDate where
  year : Nat
  month : Nat
  day : Nat
deriving DecidableEq

/-- Gregorian leap-year rule used by datetime.date. -/
def isLeapYear (y : Nat) : Bool :=
  (y % 4 == 0 && y % 100 != 0) || y % 400 == 0

/-- Days in a month, as validated by the datetime.date constructor. -/
def daysInMonth (y m : Nat) : Nat :=
  if m == 2 then (if isLeapYear y then 29 else 28)
  else if m == 4 || m == 6 || m == 9 || m == 11 then 30
  else 31

/-- The datetime.date constructor: validates the ranges and returns none on
the ValueError raised for an out-of-range component. -/
def mkPyDate? (y m d : Nat) : Option PyDate :=
  if 1 ≤ y ∧ y ≤ 9999 ∧ 1 ≤ m ∧ m ≤ 12 ∧ 1 ≤ d ∧ d ≤ daysInMonth y m then
    some { year := y, month := m, day := d }
  else none

/-- Result of to_date: Python returns the falsy input itself (None stays
None, the empty string stays the empty string), otherwise a date. -/
inductive DateVal where
  | null
  | emptyStr
  | date (d : PyDate)
deriving DecidableEq

/-- The exceptions to_date can raise. -/
inductive PyErr where
  | typeError
  | valueError
deriving DecidableEq

instance instDecEqExcept {ε α : Type} [DecidableEq ε] [DecidableEq α] :
    DecidableEq (Except ε α) := fun x y =>
  match x, y with
  | Except.ok a, Except.ok b =>
    if h : a = b then isTrue (by rw [h]) else isFalse (fun hh => h (Except.ok.inj hh))
  | Except.error a, Except.error b =>
    if h : a = b then isTrue (by rw [h]) else isFalse (fun hh => h (Except.error.inj hh))
  | Except.ok _, Except.error _ => isFalse (fun hh => Except.noConfusion hh)
  | Except.error _, Except.ok _ => isFalse (fun hh => Except.noConfusion hh)

/-- to_date (source lines 159-162): a falsy value (None or the empty string)
is returned unchanged; otherwise the string is split on "-", every part is
passed through int() — a non-numeric part raises ValueError — and the parts
are splatted into date(...): any number of parts other than exactly three
raises TypeError (date requires year, month and day), and an out-of-range
component raises ValueError. -/
def to_date : Option String → Except PyErr DateVal
  | none => Except.ok DateVal.null
  | some v =>
    if v == "" then Except.ok DateVal.emptyStr
    else
      match optMapList pyint? (pysplitOn '-' v) with
      | none => Except.error PyErr.valueError
      | some parts =>
        match parts with
        | [y, m, d] =>
          match mkPyDate? y m d with
          | some dt => Except.ok (DateVal.date dt)
          | none => Except.error PyErr.valueError
        | _ => Except.error PyErr.typeError

/-- C8 counterexample: the one- and two-component forms the claim says are
accepted actually raise TypeError (date() requires all three components),
and the empty string comes back as the empty string, not as null. -/
theorem c8_counterexample :
    to_date (some "2010") = Except.error PyErr.typeError ∧
      to_date (some "2010-05") = Except.error PyErr.typeError ∧
      to_date (some "") = Except.ok DateVal.emptyStr := by decide

lemma optMapList_length (f : α → Option β) :
    ∀ (l : List α) (bs : List β), optMapList f l = some bs → l.length = bs.length := by
  intro l
  induction l with
  | nil =>
    intro bs h
    simp only [optMapList] at h
    rw [← Option.some_inj.mp h]
    rfl
  | cons a t ih =>
    intro bs h
    simp only [optMapList] at h
    match hfa : f a, hrec : optMapList f t with
    | some b, some cs =>
      rw [hfa, hrec] at h
      rw [← Option.some_inj.mp h]
      simp [ih cs hrec]
    | some b, none => rw [hfa, hrec] at h; exact absurd h (by simp)
    | none, some cs => rw [hfa, hrec] at h; exact absurd h (by simp)
    | none, none => rw [hfa, hrec] at h; exact absurd h (by simp)

/-- C8 (amended): a missing value (None) yields null and the empty string is
returned unchanged as the empty string; a date value is produced only for
hyphen-separated numeric strings with exactly three components
(YYYY-MM-DD), as on "1998-12-31" — the one- and two-component forms raise
instead (see the counterexample). -/
theorem c8_amended :
    to_date none = Except.ok DateVal.null ∧
      to_date (some "") = Except.ok DateVal.emptyStr ∧
      to_date (some "1998-12-31") =
        Except.ok (DateVal.date { year := 1998, month := 12, day := 31 }) ∧
      (∀ (s : String) (dt : PyDate), to_date (some s) = Except.ok (DateVal.date dt) →
        (pysplitOn '-' s).length = 3) := by
  refine ⟨by decide, by decide, by decide, ?_⟩
  intro s dt h
  simp only [to_date] at h
  by_cases he : (s == "") = true
  · rw [if_pos he] at h
    exact absurd (Except.ok.inj h) (by simp)
  · rw [if_neg he] at h
    match hm : optMapList pyint? (pysplitOn '-' s) with
    | none => rw [hm] at h; exact absurd h (by simp)
    | some parts =>
      rw [hm] at h
      have hlen := optMapList_length pyint? (pysplitOn '-' s) parts hm
      match parts, h with
      | [y, m, d], h => rw [hlen]; rfl

/-- Witness for C8 (amended): instantiating the universally quantified part
at the accepted full date string. -/
theorem c8_witness : (pysplitOn '-' "1998-12-31").length = 3 :=
  c8_amended.2.2.2 "1998-12-31" { year := 1998, month := 12, day := 31 } (by decide)

/-! ## Dataset.__call__ (source lines 142-155) -/

/-- The extractor loop of Dataset.__call__, which contains no try/except:
each routine — named, with its outcome (ok, or the exception it raises) —
runs in list order; a raised exception propagates immediately out of the
loop.  The result is the list of routines that completed, paired with the
propagated exception, if any. -/
def datasetCall : List (String × Except String Unit) → List String × Option String
  | [] => ([], none)
  | (n, Except.ok _) :: rest =>
    let r := datasetCall rest
    (n :: r.1, r.2)
  | (_, Except.error e) :: _ => ([], some e)

/-- C9 (amended): a failure inside one extraction routine is not caught at
the routine boundary — it propagates out of Dataset.__call__, so the
routines before it ran, and neither the remaining routines of the same
extractor nor any later work runs. -/
theorem c9_amended (pre : List (String × Except String Unit))
    (hpre : ∀ x ∈ pre, x.2.isOk = true)
    (n e : String) (rest : List (String × Except String Unit)) :
    datasetCall (pre ++ (n, Except.error e) :: rest) = (pre.map Prod.fst, some e) := by
  induction pre with
  | nil => rfl
  | cons x t ih =>
    have hx := hpre x (List.mem_cons_self x t)
    have ht : ∀ y ∈ t, y.2.isOk = true :=
      fun y hy => hpre y (List.mem_cons_of_mem x hy)
    obtain ⟨nm, xr⟩ := x
    cases xr with
    | error e2 => exact absurd hx (by simp [Except.isOk, Except.toBool])
    | ok u =>
      rw [List.cons_append]
      show (nm :: (datasetCall (t ++ (n, Except.error e) :: rest)).1,
        (datasetCall (t ++ (n, Except.error e) :: rest)).2) =
        (((nm, Except.ok u) :: t).map Prod.fst, some e)
      rw [ih ht]
      rfl

/-- Witness for C9 (amended): one completed routine, then one raising
routine, then one routine that never runs. -/
theorem c9_witness :
    datasetCall [("extract_calendar", Except.ok ()),
        ("extract_collation", Except.error "boom"),
        ("extract_currency", Except.ok ())] =
      (["extract_calendar"], some "boom") :=
  (c9_amended [("extract_calendar", Except.ok ())] (by decide) "extract_collation" "boom"
    [("extract_currency", Except.ok ())]).trans (by decide)

/-- C9 counterexample: when the first routine raises, the sibling routine is
not reached — the completed list is empty and the error propagates,
refuting the claim that a per-routine failure is caught and the remaining
routines still run. -/
theorem c9_counterexample :
    datasetCall [("extract_supplementalData", Except.error "MemberNotFound"),
        ("extract_telephoneCodeData", Except.ok ())] =
      ([], some "MemberNotFound") := by decide

/-! ## latest_dataset and _database context managers (source lines 52-90) -/

/-- The open handles of one latest_dataset invocation after it finishes. -/
structure ArchiveHandles where
  spoolOpen : Bool
  zipOpen : Bool
deriving DecidableEq

/-- latest_dataset (source lines 52-77) run against a consumer body.  The
spooled temporary file and the ZipFile are opened before the yield.  The
generator has no try/finally, so when the body raises, the exception is
thrown into the generator at the yield point and the two close() calls
after the yield are skipped: both handles stay open.  Only on a normal
return do zipfile.close() and spool.close() run. -/
def latest_dataset_run (body : Except String Unit) : Except String Unit × ArchiveHandles :=
  match body with
  | Except.ok _ => (Except.ok (), { spoolOpen := false, zipOpen := false })
  | Except.error e => (Except.error e, { spoolOpen := true, zipOpen := true })

/-- State of one _database invocation after it finishes: whether the
connection was committed and whether it was closed. -/
structure ConnState where
  committed : Bool
  closed : Bool
deriving DecidableEq

/-- The _database context manager (source lines 80-90) run against a body.
As with latest_dataset there is no try/finally, so connection.commit() and
connection.close() after the yield run only when the body returns
normally. -/
def database_run (body : Except String Unit) : Except String Unit × ConnState :=
  match body with
  | Except.ok _ => (Except.ok (), { committed := true, closed := true })
  | Except.error e => (Except.error e, { committed := false, closed := false })

/-- C10: when an exception propagates from the consuming code, the archive
handle and the spooled file are NOT closed (the close calls after the yield
are skipped), and likewise the database connection is neither committed nor
closed — release is not unconditional, refuting the claim; on the normal
path everything is released. -/
theorem c10_cleanup_skipped :
    latest_dataset_run (Except.error "boom") =
      (Except.error "boom", { spoolOpen := true, zipOpen := true }) ∧
      database_run (Except.error "boom") =
        (Except.error "boom", { committed := false, closed := false }) ∧
      latest_dataset_run (Except.ok ()) =
        (Except.ok (), { spoolOpen := false, zipOpen := false }) ∧
      database_run (Except.ok ()) =
        (Except.ok (), { committed := true, closed := true }) :=
  ⟨rfl, rfl, rfl, rfl⟩
